import Mathlib

/-!
Verification of the truck status resolver of `src/app.py` (`get_truck_status`,
lines 40-158) against its specification.  The resolver and its two helpers
(`is_valid_date`, `to_datetime_if_date`) and the border-parsing loop are
embedded as executable Lean definitions over a model of the Python scalar
values that can occur in the fields of a truck record.
-/

set_option autoImplicit false

/-- The Python scalar values that the data model allows in a truck-record
field: `None`, `pd.NaT`, a `datetime.date`/`datetime.datetime` (encoded by its
timestamp ordinal `n`), a string, a boolean, or a number. -/
inductive PyVal where
  | none
  | naT
  | date (n : Nat)
  | str (s : String)
  | bool (b : Bool)
  | num (n : Int)
deriving DecidableEq, Repr

/-- Models `pd.isna` on the scalar values: true exactly on `None` and `NaT`. -/
def pd_isna : PyVal → Bool
  | PyVal.none => true
  | PyVal.naT => true
  | _ => false

/-- The helper `is_valid_date` (src/app.py lines 61-62):
`d is not None and not pd.isna(d)`. -/
def is_valid_date (d : PyVal) : Bool :=
  !(d == PyVal.none) && !(pd_isna d)

/-- Decimal digit test on a character (by code point, so that concrete
strings evaluate by kernel reduction). -/
def char_is_digit (c : Char) : Bool :=
  48 ≤ c.toNat && c.toNat ≤ 57

/-- Models `pd.to_datetime` on strings.  The nonempty digit strings stand for
the parseable date strings, which are mapped to their timestamp ordinal;
every other string fails to parse (in Python: raises a `ValueError`, here:
returns `Option.none`). -/
def pd_to_datetime (s : String) : Option Nat :=
  if !s.data.isEmpty && s.data.all char_is_digit then
    some (s.data.foldl (fun n c => n * 10 + (c.toNat - 48)) 0)
  else Option.none

/-- The helper `to_datetime_if_date` (src/app.py lines 65-77): a `date` is combined with
midnight (our encoding keeps its ordinal).  `pd.NaT` is itself an instance of
`datetime.date` (pandas' `NaTType` subclasses `datetime`, with payload year 1,
month 1, day 1), so the FIRST `isinstance(d, date)` branch catches it and
`datetime.combine` yields the ordinary `datetime(1, 1, 1, 0, 0)`, encoded here
as ordinal `0` — the later `pd.isna` branch is dead code for an actual NaT.
`None` and the empty string become `None`; a string is parsed if possible, and
on a parse failure the `except ValueError: pass` falls through to `return d`,
so the original string is returned unchanged; any other value is returned
as-is. -/
def to_datetime_if_date : PyVal → PyVal
  | PyVal.date n => PyVal.date n
  | PyVal.naT => PyVal.date 0
  | PyVal.none => PyVal.none
  | PyVal.str s =>
      if s = "" then PyVal.none
      else
        match pd_to_datetime s with
        | some n => PyVal.date n
        | Option.none => PyVal.str s
  | v => v

/-- Python truthiness of the scalar values, as tested by
`if truck_data.get("Cancel"):` and `if truck_data.get("Flag"):`
(src/app.py lines 44-47). -/
def truthy : PyVal → Bool
  | PyVal.none => false
  | PyVal.naT => true
  | PyVal.date _ => true
  | PyVal.str s => !s.data.isEmpty
  | PyVal.bool b => b
  | PyVal.num n => n != 0

/-- Models Python `str()` as used by f-string interpolation on the scalar
values (`str(None) = "None"`; a datetime is rendered from its ordinal). -/
def pyStr : PyVal → String
  | PyVal.none => "None"
  | PyVal.naT => "NaT"
  | PyVal.date n => toString n
  | PyVal.str s => s
  | PyVal.bool b => if b then "True" else "False"
  | PyVal.num n => toString n

/-- A truck record.  Each field is `some v` when the dictionary key is present
with value `v` and `Option.none` when the key is absent, matching
`truck_data.get(...)`.  The `borders` field is the nested `"Borders"`
dictionary, modelled as its key/value pairs in key-iteration order. -/
structure Truck where
  cancel : Option PyVal := Option.none
  flag : Option PyVal := Option.none
  arrived_at_loading_point : Option PyVal := Option.none
  loaded_date : Option PyVal := Option.none
  dispatch_date : Option PyVal := Option.none
  date_arrived : Option PyVal := Option.none
  date_offloaded : Option PyVal := Option.none
  load_location : Option PyVal := Option.none
  destination : Option PyVal := Option.none
  borders : Option (List (String × PyVal)) := Option.none
deriving Repr

/-- The per-border record built by the parsing loop: `parsed_borders[name]`
holds an `arrival_date` and a `dispatch_date`, each defaulting to `None`
(a missing dictionary key reads as `None` through `.get`). -/
structure BorderInfo where
  arrival_date : PyVal := PyVal.none
  dispatch_date : PyVal := PyVal.none
deriving DecidableEq, Repr

/-- Character-list version of `re.match(pat ++ "(.+)", s)`: `some rest` when
`s = pat ++ rest` with `rest` nonempty. -/
def match_rest : List Char → List Char → Option (List Char)
  | [], [] => Option.none
  | [], c :: cs => some (c :: cs)
  | _ :: _, [] => Option.none
  | p :: ps, c :: cs => if p = c then match_rest ps cs else Option.none

/-- Models `re.match(pat ++ "(.+)", key)`: `some rest` when `key` starts with
`pat` and at least one character follows.  (Python's `.` does not match a
newline; the model assumes newline-free keys, which is all the claims use.) -/
def re_match_rest (pat key : String) : Option String :=
  (match_rest pat.data key.data).map String.mk

/-- Whitespace as stripped by Python `str.strip` (the ASCII cases). -/
def is_space (c : Char) : Bool :=
  c = ' ' || c = '\t' || c = '\n' || c = '\r'

/-- Models Python `str.strip()`: drop leading and trailing whitespace. -/
def py_strip (s : String) : String :=
  String.mk (((s.data.dropWhile is_space).reverse.dropWhile is_space).reverse)

/-- Models `parsed_borders.setdefault(name, {})["arrival_date"] = v`: update the
association list at `name`, creating the entry at the end if absent
(insertion order, as in a Python dict). -/
def set_arrival : List (String × BorderInfo) → String → PyVal → List (String × BorderInfo)
  | [], name, v => [(name, { arrival_date := v })]
  | (n, bi) :: rest, name, v =>
      if n = name then (n, { bi with arrival_date := v }) :: rest
      else (n, bi) :: set_arrival rest name v

/-- Models `parsed_borders.setdefault(name, {})["dispatch_date"] = v`. -/
def set_dispatch : List (String × BorderInfo) → String → PyVal → List (String × BorderInfo)
  | [], name, v => [(name, { dispatch_date := v })]
  | (n, bi) :: rest, name, v =>
      if n = name then (n, { bi with dispatch_date := v }) :: rest
      else (n, bi) :: set_dispatch rest name v

/-- The border-parsing loop of `get_truck_status` (src/app.py lines 94-114):
fold over the `Borders` pairs in key-iteration order, matching each key
against `"Actual arrival at (.+)"` and then `"Actual dispatch from (.+)"`,
stripping the captured name, normalizing the value with
`to_datetime_if_date`, and recording each name once in `ordered_border_names`
in order of first occurrence. -/
def parse_borders_aux :
    List (String × PyVal) → List (String × BorderInfo) → List String →
    List (String × BorderInfo) × List String
  | [], parsed, ordered => (parsed, ordered)
  | (key, v) :: rest, parsed, ordered =>
      match re_match_rest "Actual arrival at " key with
      | some g =>
          parse_borders_aux rest (set_arrival parsed (py_strip g) (to_datetime_if_date v))
            (if py_strip g ∈ ordered then ordered else ordered ++ [py_strip g])
      | Option.none =>
          match re_match_rest "Actual dispatch from " key with
          | some g =>
              parse_borders_aux rest (set_dispatch parsed (py_strip g) (to_datetime_if_date v))
                (if py_strip g ∈ ordered then ordered else ordered ++ [py_strip g])
          | Option.none => parse_borders_aux rest parsed ordered

/-- Computes `(parsed_borders, ordered_border_names)` for a `Borders` mapping. -/
def parse_borders (l : List (String × PyVal)) : List (String × BorderInfo) × List String :=
  parse_borders_aux l [] []

/-- Outcome of the loop over `ordered_border_names`: either an early `return`
with a status string, or loop completion carrying `last_cleared_border`. -/
inductive ScanResult where
  | ret (s : String)
  | done (lc : Option String)
deriving DecidableEq, Repr

/-- Models `parsed_borders.get(border_name, {})`: association-list lookup with the
empty record as default. -/
def lookup_border : List (String × BorderInfo) → String → BorderInfo
  | [], _ => {}
  | (n, bi) :: rest, name => if n = name then bi else lookup_border rest name

/-- The status loop over `ordered_border_names` (src/app.py lines 119-138).
`ll` is `str(load_location)` and `lc` is `last_cleared_border` (Python `None`
or a border name, tested by truthiness, so the empty string counts as unset). -/
def border_scan (parsed : List (String × BorderInfo)) (ll : String) :
    List String → Option String → ScanResult
  | [], lc => ScanResult.done lc
  | name :: rest, lc =>
      let bi := lookup_border parsed name
      if is_valid_date bi.arrival_date && !(is_valid_date bi.dispatch_date) then
        ScanResult.ret ("Clearing at " ++ name)
      else if is_valid_date bi.arrival_date && is_valid_date bi.dispatch_date then
        border_scan parsed ll rest (some name)
      else if !(is_valid_date bi.arrival_date) && !(is_valid_date bi.dispatch_date) then
        match lc with
        | some l =>
            if l.data.isEmpty then ScanResult.ret ("Departing from " ++ ll ++ " enroute to " ++ name)
            else ScanResult.ret ("Departing from " ++ l ++ " enroute to " ++ name)
        | Option.none => ScanResult.ret ("Departing from " ++ ll ++ " enroute to " ++ name)
      else
        border_scan parsed ll rest lc

/-- The `elif` after the loop (src/app.py lines 147-149): dispatched but no
borders defined.  When it does not apply either, the Python function falls
off the end of the `if is_valid_date(dispatch_date_dt):` block and implicitly
returns `None`, modelled as `Option.none`. -/
def dispatch_fallthrough (t : Truck) : Option String :=
  if is_valid_date (to_datetime_if_date (t.dispatch_date.getD PyVal.none)) &&
      ((parse_borders (t.borders.getD [])).2).isEmpty then
    some ("Departing from " ++ pyStr (t.load_location.getD (PyVal.str "N/A")) ++
      " enroute to " ++ pyStr (t.destination.getD (PyVal.str "N/A")))
  else Option.none

/-- The body of the `if is_valid_date(dispatch_date_dt):` branch
(src/app.py lines 93-149): parse the borders, run the loop, and on loop
completion test `if last_cleared_border:` (truthiness) before the final
`elif`. -/
def dispatch_branch (t : Truck) : Option String :=
  match border_scan (parse_borders (t.borders.getD [])).1
      (pyStr (t.load_location.getD (PyVal.str "N/A")))
      (parse_borders (t.borders.getD [])).2 Option.none with
  | ScanResult.ret s => some s
  | ScanResult.done lc =>
      match lc with
      | some l =>
          if l.data.isEmpty then dispatch_fallthrough t
          else some ("Departing from " ++ l ++ " enroute to " ++
            pyStr (t.destination.getD (PyVal.str "N/A")))
      | Option.none => dispatch_fallthrough t

/-- The resolver `get_truck_status` (src/app.py lines 40-158).  Every Python `return` is
`some`; falling off the end of the function (which Python turns into a
`return None`) is `Option.none`. -/
def get_truck_status (t : Truck) : Option String :=
  if truthy (t.cancel.getD PyVal.none) then some "Cancelled"
  else if truthy (t.flag.getD PyVal.none) then some "Flagged"
  else if is_valid_date (to_datetime_if_date (t.date_offloaded.getD PyVal.none)) then
    some "Offloaded"
  else if is_valid_date (to_datetime_if_date (t.date_arrived.getD PyVal.none)) then
    some "Arrived for off loading"
  else if is_valid_date (to_datetime_if_date (t.dispatch_date.getD PyVal.none)) then
    dispatch_branch t
  else if is_valid_date (to_datetime_if_date (t.loaded_date.getD PyVal.none)) then
    some "Loaded"
  else if is_valid_date (to_datetime_if_date (t.arrived_at_loading_point.getD PyVal.none)) then
    some "Waiting to load"
  else some "Booked"

/-! ## Concrete records used by the claim theorems -/

/-- A truck whose only milestone data is a valid dispatch date and a single
border key of the dispatch-from shape with a valid timestamp. -/
def truckC1 : Truck :=
  { dispatch_date := some (PyVal.date 5),
    borders := some [("Actual dispatch from Beitbridge", PyVal.date 3)] }

/-- A truck whose `Date offloaded` holds a string that does not parse as a
date. -/
def truckC2 : Truck := { date_offloaded := some (PyVal.str "not-a-date") }

/-- `truckC2` with the unparseable string replaced by an absent value. -/
def truckC2_absent : Truck := { date_offloaded := some PyVal.none }

/-- Dispatched truck with two borders, in key order A then B, both with a
valid arrival (A earlier than B) and no dispatch. -/
def truckC3 : Truck :=
  { dispatch_date := some (PyVal.date 1),
    borders := some [("Actual arrival at A", PyVal.date 2),
                     ("Actual arrival at B", PyVal.date 3)] }

/-- A `Borders` mapping whose key order (B, A, C) disagrees with the arrival
order (A at 5 before B at 10) and which has a border C without any arrival. -/
def bordersC4 : List (String × PyVal) :=
  [("Actual arrival at B", PyVal.date 10),
   ("Actual arrival at A", PyVal.date 5),
   ("Actual dispatch from C", PyVal.date 7)]

/-- The same entries as `bordersC4`, in a different key order. -/
def bordersC4b : List (String × PyVal) :=
  [("Actual arrival at A", PyVal.date 5),
   ("Actual arrival at B", PyVal.date 10),
   ("Actual dispatch from C", PyVal.date 7)]

/-- A cancelled truck whose remaining fields are filled adversarially (flag
set, milestone dates valid, borders present). -/
def truckC6 : Truck :=
  { cancel := some (PyVal.bool true), flag := some (PyVal.bool true),
    arrived_at_loading_point := some (PyVal.date 1),
    loaded_date := some (PyVal.date 2),
    dispatch_date := some (PyVal.date 3),
    date_arrived := some (PyVal.date 8),
    date_offloaded := some (PyVal.date 9),
    load_location := some (PyVal.str "Lusaka"),
    destination := some (PyVal.str "Durban"),
    borders := some [("Actual arrival at Chirundu", PyVal.date 4)] }

/-- A truck whose only populated field is `Loaded Date` = `pd.NaT` — per the
spec a record with no valid date at all, but the code converts the NaT to the
valid `datetime(1, 1, 1)`. -/
def truckC7c : Truck := { loaded_date := some PyVal.naT }

/-- A truck with every key absent. -/
def truckC7_absent : Truck := {}

/-- A truck whose `Cancel` field holds a non-empty string. -/
def truckC10 : Truck := { cancel := some (PyVal.str "yes") }

/-- Dispatched truck, empty `Borders` dictionary, both endpoint keys
missing. -/
def truckC9a : Truck := { dispatch_date := some (PyVal.date 3), borders := some [] }

/-- Dispatched truck, empty `Borders` dictionary, both endpoint keys present
with a null value. -/
def truckC9b : Truck :=
  { dispatch_date := some (PyVal.date 3), borders := some [],
    load_location := some PyVal.none, destination := some PyVal.none }

/-- The border name captured by a `Borders` key, when the key matches one of
the two patterns of the parsing loop. -/
def re_key_name (key : String) : Option String :=
  match re_match_rest "Actual arrival at " key with
  | some g => some (py_strip g)
  | Option.none =>
      match re_match_rest "Actual dispatch from " key with
      | some g => some (py_strip g)
      | Option.none => Option.none

/-- Append each name to the accumulator the first time it occurs. -/
def first_occurrences : List String → List String → List String
  | [], acc => acc
  | n :: rest, acc => first_occurrences rest (if n ∈ acc then acc else acc ++ [n])

/-- Version of `pd.to_datetime` with its failure made explicit: an unparseable string
raises a `ValueError`, modelled as `Except.error`. -/
def pd_to_datetimeE (s : String) : Except String Nat :=
  match pd_to_datetime s with
  | some n => Except.ok n
  | Option.none => Except.error "ValueError"

/-- Version of `to_datetime_if_date` with exception propagation made explicit: its only
fallible operation is the `pd.to_datetime` call, and the surrounding
`try/except ValueError: pass` catches the error and falls through to
`return d`. -/
def to_datetime_if_dateE : PyVal → Except String PyVal
  | PyVal.date n => Except.ok (PyVal.date n)
  | PyVal.naT => Except.ok (PyVal.date 0)
  | PyVal.none => Except.ok PyVal.none
  | PyVal.str s =>
      if s = "" then Except.ok PyVal.none
      else
        match pd_to_datetimeE s with
        | Except.ok n => Except.ok (PyVal.date n)
        | Except.error _ => Except.ok (PyVal.str s)
  | v => Except.ok v

/-- The border-parsing loop with exception propagation: every border value
goes through the fallible conversion, in key-iteration order. -/
def parse_borders_auxE :
    List (String × PyVal) → List (String × BorderInfo) → List String →
    Except String (List (String × BorderInfo) × List String)
  | [], parsed, ordered => Except.ok (parsed, ordered)
  | (key, v) :: rest, parsed, ordered =>
      match re_match_rest "Actual arrival at " key with
      | some g =>
          match to_datetime_if_dateE v with
          | Except.error e => Except.error e
          | Except.ok dv =>
              parse_borders_auxE rest (set_arrival parsed (py_strip g) dv)
                (if py_strip g ∈ ordered then ordered else ordered ++ [py_strip g])
      | Option.none =>
          match re_match_rest "Actual dispatch from " key with
          | some g =>
              match to_datetime_if_dateE v with
              | Except.error e => Except.error e
              | Except.ok dv =>
                  parse_borders_auxE rest (set_dispatch parsed (py_strip g) dv)
                    (if py_strip g ∈ ordered then ordered else ordered ++ [py_strip g])
          | Option.none => parse_borders_auxE rest parsed ordered

/-- Version of `get_truck_status` with exception propagation made explicit: every
fallible conversion of the source (the five milestone fields, in source
order, and every border value inside the dispatch branch) is performed
through the `Except`-level helpers; any uncaught exception would surface as
`Except.error`. -/
def get_truck_statusE (t : Truck) : Except String (Option String) :=
  if truthy (t.cancel.getD PyVal.none) then Except.ok (some "Cancelled")
  else if truthy (t.flag.getD PyVal.none) then Except.ok (some "Flagged")
  else
    match to_datetime_if_dateE (t.arrived_at_loading_point.getD PyVal.none) with
    | Except.error e => Except.error e
    | Except.ok aalp_dt =>
    match to_datetime_if_dateE (t.loaded_date.getD PyVal.none) with
    | Except.error e => Except.error e
    | Except.ok loaded_dt =>
    match to_datetime_if_dateE (t.dispatch_date.getD PyVal.none) with
    | Except.error e => Except.error e
    | Except.ok dispatch_dt =>
    match to_datetime_if_dateE (t.date_arrived.getD PyVal.none) with
    | Except.error e => Except.error e
    | Except.ok arrived_dt =>
    match to_datetime_if_dateE (t.date_offloaded.getD PyVal.none) with
    | Except.error e => Except.error e
    | Except.ok offloaded_dt =>
    if is_valid_date offloaded_dt then Except.ok (some "Offloaded")
    else if is_valid_date arrived_dt then Except.ok (some "Arrived for off loading")
    else if is_valid_date dispatch_dt then
      match parse_borders_auxE (t.borders.getD []) [] [] with
      | Except.error e => Except.error e
      | Except.ok _ => Except.ok (dispatch_branch t)
    else if is_valid_date loaded_dt then Except.ok (some "Loaded")
    else if is_valid_date aalp_dt then Except.ok (some "Waiting to load")
    else Except.ok (some "Booked")

example : get_truck_status {} = some "Booked" := rfl

example : get_truck_status { cancel := some (PyVal.bool true) } = some "Cancelled" := rfl

example : get_truck_status { date_offloaded := some (PyVal.str "20240101") } = some "Offloaded" := by decide

example :
    get_truck_status
      { dispatch_date := some (PyVal.date 5),
        borders := some [("Actual arrival at A", PyVal.date 2), ("Actual arrival at B", PyVal.date 3)] } =
    some "Clearing at A" := by decide

example :
    get_truck_status
      { dispatch_date := some (PyVal.date 5),
        borders := some [("Actual dispatch from X", PyVal.date 3)] } =
    Option.none := by decide

example :
    get_truck_status { dispatch_date := some (PyVal.date 5) } =
    some "Departing from N/A enroute to N/A" := by decide

/-! ## Claim C1 -/

/-- C1: the claim says `get_truck_status` always returns one of the fixed
status strings, with `Booked` as the default.  It fails: on a truck with a
valid dispatch date whose only border entry is a dispatch-from key with a
valid timestamp, the border loop takes no branch, `last_cleared_border`
stays unset, the after-loop `elif` does not fire because a border name is
defined, and the function falls off the end, returning Python `None`
instead of any status string. -/
theorem c1_falls_off_the_end : get_truck_status truckC1 = Option.none := rfl

/-! ## Claim C2 -/

/-- C2: the claim says the date-normalization helper maps any unparseable
string to the absent marker, so that an unparseable string behaves like an
absent value everywhere.  It fails: `to_datetime_if_date` catches the parse
error and returns the original string unchanged, `is_valid_date` then counts
that string as a valid date, and a truck whose `Date offloaded` is the
unparseable string `"not-a-date"` resolves to `Offloaded`, while the same
truck with that field absent resolves to `Booked`. -/
theorem c2_unparseable_string_counts_as_valid :
    to_datetime_if_date (PyVal.str "not-a-date") = PyVal.str "not-a-date" ∧
    is_valid_date (to_datetime_if_date (PyVal.str "not-a-date")) = true ∧
    get_truck_status truckC2 = some "Offloaded" ∧
    get_truck_status truckC2_absent = some "Booked" :=
  ⟨rfl, rfl, rfl, rfl⟩

/-! ## Claim C6 -/

/-- C6: whenever the `Cancel` field holds boolean true, the resolver returns
`Cancelled`, regardless of every other field of the record. -/
theorem c6_cancelled_overrides (t : Truck) (h : t.cancel = some (PyVal.bool true)) :
    get_truck_status t = some "Cancelled" := by
  unfold get_truck_status
  rw [h]
  rfl

/-- Witness for C6 at a record whose every other field is adversarial. -/
theorem c6_witness : get_truck_status truckC6 = some "Cancelled" :=
  c6_cancelled_overrides truckC6 rfl

/-! ## Claim C7 -/

/-- C7: the claim's pre-dispatch fallback says a record with no valid date
field resolves to `Booked`, and the spec (with the code's own comments in
`to_datetime_if_date` and `is_valid_date`) treats `pd.NaT` as absent.  The
code is wrong there: `pd.NaT` is an instance of `datetime.date`, so the
first `isinstance` branch converts it to the valid `datetime(1, 1, 1)`, and
a truck whose only data is `Loaded Date` = `pd.NaT` resolves to `Loaded`
instead of `Booked`; with the field genuinely absent the resolver does
return `Booked`. -/
theorem c7_nat_counts_as_valid_loaded :
    to_datetime_if_date PyVal.naT = PyVal.date 0 ∧
    is_valid_date (to_datetime_if_date PyVal.naT) = true ∧
    get_truck_status truckC7c = some "Loaded" ∧
    get_truck_status truckC7_absent = some "Booked" :=
  ⟨rfl, rfl, rfl, rfl⟩

/-! ## Claim C8 -/

/-- C8: the resolver is a pure function of the record: two invocations on
the same input yield the same status, with no hidden state. -/
theorem c8_deterministic (t : Truck) : get_truck_status t = get_truck_status t := rfl

/-! ## Claim C3 -/

/-- If every border before `b` in the scanned order has a valid dispatch
timestamp, and `b` has a valid arrival but no valid dispatch, the loop
returns `Clearing at b` — the first qualifying border in scan order. -/
theorem border_scan_first_clearing (parsed : List (String × BorderInfo)) (ll : String)
    (b : String) (post : List String) :
    ∀ (pre : List String) (lc : Option String),
      (∀ n ∈ pre, is_valid_date (lookup_border parsed n).dispatch_date = true) →
      is_valid_date (lookup_border parsed b).arrival_date = true →
      is_valid_date (lookup_border parsed b).dispatch_date = false →
      border_scan parsed ll (pre ++ b :: post) lc = ScanResult.ret ("Clearing at " ++ b) := by
  intro pre
  induction pre with
  | nil =>
      intro lc hpre hb hbd
      simp [border_scan, hb, hbd]
  | cons n rest ih =>
      intro lc hpre hb hbd
      have hn : is_valid_date (lookup_border parsed n).dispatch_date = true :=
        hpre n (List.mem_cons_self n rest)
      have hrest : ∀ m ∈ rest, is_valid_date (lookup_border parsed m).dispatch_date = true :=
        fun m hm => hpre m (List.mem_cons_of_mem n hm)
      by_cases ha : is_valid_date (lookup_border parsed n).arrival_date = true
      · simpa [border_scan, ha, hn] using ih (some n) hrest hb hbd
      · simp only [Bool.not_eq_true] at ha
        simpa [border_scan, ha, hn] using ih lc hrest hb hbd

/-- C3 as stated is false: on `truckC3`, borders A and B (in that key order
and that arrival order) both have a valid arrival and no valid dispatch, yet
the resolver returns `Clearing at A` — the first match of a start-to-end
scan — not `Clearing at B`, the last border of the reconstructed sequence. -/
theorem c3_counterexample :
    get_truck_status truckC3 = some "Clearing at A" ∧
    get_truck_status truckC3 ≠ some "Clearing at B" := by
  exact ⟨rfl, by decide⟩

/-- C3 amended: with the overrides falsy, `Date offloaded`/`Date Arrived`
invalid and `Dispatch date` valid, if the reconstructed (key-iteration
order) sequence splits as `pre ++ b :: post` where `b` has a valid arrival
and no valid dispatch and every border of `pre` has a valid dispatch, the
resolver returns `Clearing at b`: the FIRST qualifying border of a
start-to-end scan, not the last. -/
theorem c3_first_qualifying_border (t : Truck)
    (hc : truthy (t.cancel.getD PyVal.none) = false)
    (hf : truthy (t.flag.getD PyVal.none) = false)
    (hoff : is_valid_date (to_datetime_if_date (t.date_offloaded.getD PyVal.none)) = false)
    (harr : is_valid_date (to_datetime_if_date (t.date_arrived.getD PyVal.none)) = false)
    (hdisp : is_valid_date (to_datetime_if_date (t.dispatch_date.getD PyVal.none)) = true)
    (pre : List String) (b : String) (post : List String)
    (hseq : (parse_borders (t.borders.getD [])).2 = pre ++ b :: post)
    (hpre : ∀ n ∈ pre,
      is_valid_date (lookup_border (parse_borders (t.borders.getD [])).1 n).dispatch_date = true)
    (hb : is_valid_date (lookup_border (parse_borders (t.borders.getD [])).1 b).arrival_date = true)
    (hbd : is_valid_date (lookup_border (parse_borders (t.borders.getD [])).1 b).dispatch_date = false) :
    get_truck_status t = some ("Clearing at " ++ b) := by
  have hscan := border_scan_first_clearing (parse_borders (t.borders.getD [])).1
    (pyStr (t.load_location.getD (PyVal.str "N/A"))) b post pre Option.none hpre hb hbd
  simp [get_truck_status, dispatch_branch, hc, hf, hoff, harr, hdisp, hseq, hscan]

/-- Witness for the amended C3, at a record with two qualifying borders. -/
theorem c3_witness : get_truck_status truckC3 = some ("Clearing at " ++ "A") :=
  c3_first_qualifying_border truckC3 rfl rfl rfl rfl rfl [] "A" ["B"] rfl
    (by intro n hn; exact absurd hn (List.not_mem_nil n)) rfl rfl

/-! ## Claim C4 -/

/-- C4 as stated is false: the reconstruction does not order border names by
arrival timestamp (A arrives at 5, B at 10, yet B is listed first because
its key comes first), and a border with no valid arrival (C) is not excluded
from the ordering; permuting the keys of the same entries changes the
ordering. -/
theorem c4_counterexample :
    (parse_borders bordersC4).2 = ["B", "A", "C"] ∧
    (parse_borders bordersC4).2 ≠ ["A", "B"] ∧
    (parse_borders bordersC4b).2 = ["A", "B", "C"] := by
  exact ⟨rfl, by decide, rfl⟩

/-- The reconstructed name list equals the first-occurrence fold of the
names captured from the keys, independent of the values. -/
theorem parse_borders_aux_names :
    ∀ (l : List (String × PyVal)) (parsed : List (String × BorderInfo)) (ordered : List String),
      (parse_borders_aux l parsed ordered).2 =
        first_occurrences ((l.map Prod.fst).filterMap re_key_name) ordered := by
  intro l
  induction l with
  | nil => intro parsed ordered; rfl
  | cons kv rest ih =>
      intro parsed ordered
      obtain ⟨key, v⟩ := kv
      cases h1 : re_match_rest "Actual arrival at " key with
      | some g => simp [parse_borders_aux, re_key_name, first_occurrences, h1, ih]
      | none =>
          cases h2 : re_match_rest "Actual dispatch from " key with
          | some g => simp [parse_borders_aux, re_key_name, first_occurrences, h1, h2, ih]
          | none => simp [parse_borders_aux, re_key_name, h1, h2, ih]

/-- C4 amended: for every borders mapping, the reconstruction orders border
names by FIRST OCCURRENCE in the key-iteration order of the mapping — a
function of the keys alone, not of the arrival timestamps — and borders
without a valid arrival timestamp are kept, not excluded. -/
theorem c4_key_iteration_order (l : List (String × PyVal)) :
    (parse_borders l).2 = first_occurrences ((l.map Prod.fst).filterMap re_key_name) [] :=
  parse_borders_aux_names l [] []

/-! ## Claim C5 -/

/-- The `try/except` inside `to_datetime_if_date` catches the only
exception, so the helper always returns normally. -/
theorem to_datetime_if_dateE_ok (d : PyVal) :
    to_datetime_if_dateE d = Except.ok (to_datetime_if_date d) := by
  cases d with
  | str s =>
      by_cases hs : s = ""
      · simp [to_datetime_if_dateE, to_datetime_if_date, hs]
      · cases hp : pd_to_datetime s <;>
          simp [to_datetime_if_dateE, to_datetime_if_date, pd_to_datetimeE, hs, hp]
  | none => rfl
  | naT => rfl
  | date n => rfl
  | bool b => rfl
  | num n => rfl

/-- The border-parsing loop never propagates an exception. -/
theorem parse_borders_auxE_ok :
    ∀ (l : List (String × PyVal)) (parsed : List (String × BorderInfo)) (ordered : List String),
      parse_borders_auxE l parsed ordered = Except.ok (parse_borders_aux l parsed ordered) := by
  intro l
  induction l with
  | nil => intro parsed ordered; rfl
  | cons kv rest ih =>
      intro parsed ordered
      obtain ⟨key, v⟩ := kv
      cases h1 : re_match_rest "Actual arrival at " key with
      | some g => simp [parse_borders_auxE, parse_borders_aux, h1, to_datetime_if_dateE_ok, ih]
      | none =>
          cases h2 : re_match_rest "Actual dispatch from " key with
          | some g =>
              simp [parse_borders_auxE, parse_borders_aux, h1, h2, to_datetime_if_dateE_ok, ih]
          | none => simp [parse_borders_auxE, parse_borders_aux, h1, h2, ih]

/-- C5: for every truck record, the resolver terminates normally with its
pure result and never propagates an exception — every fallible conversion is
caught inside `to_datetime_if_date`, so the `Except`-level resolver always
returns `Except.ok`. -/
theorem c5_never_raises (t : Truck) :
    get_truck_statusE t = Except.ok (get_truck_status t) := by
  unfold get_truck_statusE get_truck_status
  simp only [to_datetime_if_dateE_ok, parse_borders_auxE_ok]
  repeat first
    | rfl
    | split

/-! ## Claim C9 -/

/-- C9: the `"N/A"` placeholder is the `.get` default, used only when the
`Load Location` / `Destination` KEY is entirely missing; a key present with a
null value is interpolated by `str(None)`, producing `"None"` in the
departing statuses.  Shown for all three departing templates that mention an
endpoint: no borders (both endpoints), one unreached border (load location
side), one fully cleared border (destination side). -/
theorem c9_endpoint_placeholders (t : Truck)
    (hc : truthy (t.cancel.getD PyVal.none) = false)
    (hf : truthy (t.flag.getD PyVal.none) = false)
    (hoff : is_valid_date (to_datetime_if_date (t.date_offloaded.getD PyVal.none)) = false)
    (harr : is_valid_date (to_datetime_if_date (t.date_arrived.getD PyVal.none)) = false)
    (hdisp : is_valid_date (to_datetime_if_date (t.dispatch_date.getD PyVal.none)) = true) :
    (t.borders = some [] → t.load_location = Option.none → t.destination = Option.none →
      get_truck_status t = some "Departing from N/A enroute to N/A") ∧
    (t.borders = some [] → t.load_location = some PyVal.none → t.destination = some PyVal.none →
      get_truck_status t = some "Departing from None enroute to None") ∧
    (t.borders = some [("Actual arrival at B", PyVal.none)] → t.load_location = Option.none →
      get_truck_status t = some "Departing from N/A enroute to B") ∧
    (t.borders = some [("Actual arrival at B", PyVal.none)] → t.load_location = some PyVal.none →
      get_truck_status t = some "Departing from None enroute to B") ∧
    (t.borders = some [("Actual arrival at B", PyVal.date 1),
        ("Actual dispatch from B", PyVal.date 2)] → t.destination = Option.none →
      get_truck_status t = some "Departing from B enroute to N/A") ∧
    (t.borders = some [("Actual arrival at B", PyVal.date 1),
        ("Actual dispatch from B", PyVal.date 2)] → t.destination = some PyVal.none →
      get_truck_status t = some "Departing from B enroute to None") := by
  have hgs : get_truck_status t = dispatch_branch t := by
    simp [get_truck_status, hc, hf, hoff, harr, hdisp]
  refine ⟨fun hb hl hd => ?_, fun hb hl hd => ?_, fun hb hl => ?_, fun hb hl => ?_,
    fun hb hd => ?_, fun hb hd => ?_⟩
  · rw [hgs]; unfold dispatch_branch dispatch_fallthrough; rw [hb, hl, hd, hdisp]; rfl
  · rw [hgs]; unfold dispatch_branch dispatch_fallthrough; rw [hb, hl, hd, hdisp]; rfl
  · rw [hgs]; unfold dispatch_branch dispatch_fallthrough; rw [hb, hl, hdisp]; rfl
  · rw [hgs]; unfold dispatch_branch dispatch_fallthrough; rw [hb, hl, hdisp]; rfl
  · rw [hgs]; unfold dispatch_branch dispatch_fallthrough; rw [hb, hd, hdisp]; rfl
  · rw [hgs]; unfold dispatch_branch dispatch_fallthrough; rw [hb, hd, hdisp]; rfl

/-- Witness for C9: the two no-borders cases at concrete records. -/
theorem c9_witness :
    get_truck_status truckC9a = some "Departing from N/A enroute to N/A" ∧
    get_truck_status truckC9b = some "Departing from None enroute to None" :=
  ⟨(c9_endpoint_placeholders truckC9a rfl rfl rfl rfl rfl).1 rfl rfl rfl,
   (c9_endpoint_placeholders truckC9b rfl rfl rfl rfl rfl).2.1 rfl rfl rfl⟩

/-! ## Claim C10 -/

/-- Any status produced by the after-loop fallthrough is a departing string
of length at least 12. -/
theorem dispatch_fallthrough_length (t : Truck) (s : String)
    (h : dispatch_fallthrough t = some s) : 12 ≤ s.length := by
  unfold dispatch_fallthrough at h
  split at h
  · cases h
    simp only [String.length_append]
    have h1 : ("Departing from ").length = 15 := rfl
    omega
  · exact absurd h (by simp)

/-- Any early return of the border loop has length at least 12. -/
theorem border_scan_ret_length (parsed : List (String × BorderInfo)) (ll : String) :
    ∀ (names : List String) (lc : Option String) (s : String),
      border_scan parsed ll names lc = ScanResult.ret s → 12 ≤ s.length := by
  intro names
  induction names with
  | nil => intro lc s h; simp [border_scan] at h
  | cons name rest ih =>
      intro lc s h
      simp only [border_scan] at h
      split at h
      · cases h
        simp only [String.length_append]
        have h1 : ("Clearing at ").length = 12 := rfl
        omega
      · split at h
        · exact ih _ _ h
        · split at h
          · split at h
            · split at h
              · cases h
                simp only [String.length_append]
                have h1 : ("Departing from ").length = 15 := rfl
                omega
              · cases h
                simp only [String.length_append]
                have h1 : ("Departing from ").length = 15 := rfl
                omega
            · cases h
              simp only [String.length_append]
              have h1 : ("Departing from ").length = 15 := rfl
              omega
          · exact ih _ _ h

/-- Any status produced by the dispatch branch has length at least 12, so it
is neither `Cancelled` nor `Flagged`. -/
theorem dispatch_branch_length (t : Truck) (s : String)
    (h : dispatch_branch t = some s) : 12 ≤ s.length := by
  unfold dispatch_branch at h
  split at h
  · next heq =>
      cases h
      exact border_scan_ret_length _ _ _ _ _ heq
  · split at h
    · split at h
      · exact dispatch_fallthrough_length t s h
      · cases h
        simp only [String.length_append]
        have h1 : ("Departing from ").length = 15 := rfl
        omega
    · exact dispatch_fallthrough_length t s h

/-- The only way to obtain `Cancelled` is a truthy `Cancel` field. -/
theorem cancelled_needs_truthy_cancel (t : Truck)
    (h : get_truck_status t = some "Cancelled") :
    truthy (t.cancel.getD PyVal.none) = true := by
  by_contra hcn
  rw [Bool.not_eq_true] at hcn
  unfold get_truck_status at h
  rw [hcn] at h
  simp only [Bool.false_eq_true, if_false] at h
  repeat' split at h
  all_goals
    first
      | exact absurd h (by decide)
      | (have hlen := dispatch_branch_length t "Cancelled" h
         revert hlen
         decide)

/-- The only way to obtain `Flagged` is a truthy `Flag` field. -/
theorem flagged_needs_truthy_flag (t : Truck)
    (h : get_truck_status t = some "Flagged") :
    truthy (t.flag.getD PyVal.none) = true := by
  by_contra hfn
  rw [Bool.not_eq_true] at hfn
  unfold get_truck_status at h
  rw [hfn] at h
  simp only [Bool.false_eq_true, if_false] at h
  repeat' split at h
  all_goals
    first
      | exact absurd h (by decide)
      | (have hlen := dispatch_branch_length t "Flagged" h
         revert hlen
         decide)

/-- C10: `Cancel` and `Flag` are tested by Python truthiness, not by boolean
equality: any non-empty string or nonzero number in `Cancel` yields
`Cancelled`; with `Cancel` falsy, any such value in `Flag` yields `Flagged`;
and the falsy values (missing key, null, false, 0, empty string) never
trigger either override. -/
theorem c10_truthy_overrides (t : Truck) :
    (∀ s : String, s ≠ "" → t.cancel = some (PyVal.str s) →
      get_truck_status t = some "Cancelled") ∧
    (∀ n : Int, n ≠ 0 → t.cancel = some (PyVal.num n) →
      get_truck_status t = some "Cancelled") ∧
    (truthy (t.cancel.getD PyVal.none) = false →
      ∀ s : String, s ≠ "" → t.flag = some (PyVal.str s) →
      get_truck_status t = some "Flagged") ∧
    (truthy (t.cancel.getD PyVal.none) = false →
      ∀ n : Int, n ≠ 0 → t.flag = some (PyVal.num n) →
      get_truck_status t = some "Flagged") ∧
    ((t.cancel = Option.none ∨ t.cancel = some PyVal.none ∨
        t.cancel = some (PyVal.bool false) ∨ t.cancel = some (PyVal.num 0) ∨
        t.cancel = some (PyVal.str "")) →
      get_truck_status t ≠ some "Cancelled") ∧
    ((t.flag = Option.none ∨ t.flag = some PyVal.none ∨
        t.flag = some (PyVal.bool false) ∨ t.flag = some (PyVal.num 0) ∨
        t.flag = some (PyVal.str "")) →
      get_truck_status t ≠ some "Flagged") := by
  refine ⟨?_, ?_, ?_, ?_, ?_, ?_⟩
  · intro s hs hcv
    have hd : s.data.isEmpty = false := by
      cases hde : s.data with
      | nil => exact absurd (String.ext (hde.trans rfl)) hs
      | cons c cs => rfl
    simp [get_truck_status, hcv, truthy, hd]
  · intro n hn hcv
    simp [get_truck_status, hcv, truthy, bne_iff_ne, hn]
  · intro hcf s hs hfv
    have hd : s.data.isEmpty = false := by
      cases hde : s.data with
      | nil => exact absurd (String.ext (hde.trans rfl)) hs
      | cons c cs => rfl
    have hft : truthy (t.flag.getD PyVal.none) = true := by
      rw [hfv]; simp [truthy, hd]
    simp [get_truck_status, hcf, hft]
  · intro hcf n hn hfv
    have hft : truthy (t.flag.getD PyVal.none) = true := by
      rw [hfv]; simp [truthy, bne_iff_ne, hn]
    simp [get_truck_status, hcf, hft]
  · intro hdisj hEq
    have htr := cancelled_needs_truthy_cancel t hEq
    rcases hdisj with h0 | h0 | h0 | h0 | h0 <;> rw [h0] at htr <;> simp [truthy] at htr
  · intro hdisj hEq
    have htr := flagged_needs_truthy_flag t hEq
    rcases hdisj with h0 | h0 | h0 | h0 | h0 <;> rw [h0] at htr <;> simp [truthy] at htr

/-- Witness for C10: a non-empty string in `Cancel` yields `Cancelled`. -/
theorem c10_witness : get_truck_status truckC10 = some "Cancelled" :=
  (c10_truthy_overrides truckC10).1 "yes" (by decide) rfl
